import Mathlib

/-!
Verification of `src/infra/remote-setup.py` (the Remote Bootstrap Runner).

The script is a straight-line Python program: it reads a local bootstrap
script, builds an `expect` transcript by f-string interpolation, runs the
`expect` binary on that transcript via `subprocess.run` with a 600-second
timeout, and reports the result.  The embedding below models the program as
a pure function from an environment (the contents of the local script file,
if present, and the behavior of the one subprocess call) to a trace of
observable events plus a final outcome.
-/

/-- Hardcoded target host address (`VPS_IP` in the source, line 6). -/
def VPS_IP : String := "159.89.113.242"

/-- Hardcoded remote user (`VPS_USER` in the source, line 7). -/
def VPS_USER : String := "root"

/-- Hardcoded password (`VPS_PASS` in the source, line 8). -/
def VPS_PASS : String := "AVallon1231402@rooot"

/-- Path of the local bootstrap script, relative to the directory of the
running script: `os.path.join(os.path.dirname(__file__), "setup-on-server.sh")`
(source line 11).  The directory part depends on the invocation; we keep the
fixed basename. -/
def setup_script_path : String := "setup-on-server.sh"

/-- The expect transcript built by the f-string on source lines 16–28,
translated chunk for chunk: the literal pieces of the f-string with the
interpolation slots `{VPS_USER}`, `{VPS_IP}`, `{VPS_PASS}` and
`{setup_script}` in the same places.  The two-character sequence `\\r` in the
Python source (an escaped backslash followed by `r`) denotes a literal
backslash-r in the produced string, and it is a literal backslash-r here
as well. -/
def expect_script (VPS_USER VPS_IP VPS_PASS setup_script : String) : String :=
  "#!/usr/bin/expect -f\nset timeout 300\nspawn ssh -o StrictHostKeyChecking=no "
    ++ VPS_USER ++ "@" ++ VPS_IP
    ++ "\nexpect \"password:\"\nsend \"" ++ VPS_PASS
    ++ "\\r\"\nexpect \"# \"\nsend \"bash << 'REMOTE_SCRIPT'\\r\"\nsend \"" ++ setup_script
    ++ "\"\nsend \"REMOTE_SCRIPT\\r\"\nexpect \"# \"\nsend \"exit\\r\"\nexpect eof\n"

/-- The possible behaviors of the one `subprocess.run(['expect', '-c', …], …)`
call (source lines 32–37): the process is found and completes with captured
text-mode stdout, stderr and a return code; the `expect` binary is absent and
the call raises `FileNotFoundError` before any process starts; or the
600-second timeout expires and the call raises `subprocess.TimeoutExpired`. -/
inductive SubprocessBehavior where
  | completed (stdout stderr : String) (returncode : Int)
  | binaryMissing
  | timedOut
deriving DecidableEq, Repr

/-- The environment of one run: the contents of the local bootstrap script
file when it exists (`none` when `open` raises `FileNotFoundError`), and the
behavior of the automation-utility subprocess. -/
structure Env where
  setupScriptFile : Option String
  expectBehavior : SubprocessBehavior
deriving DecidableEq, Repr

/-- The two standard output channels of the process. -/
inductive StdStream where
  | stdout
  | stderr
deriving DecidableEq, Repr

/-- Python exceptions that can escape the script unhandled. -/
inductive PyExc where
  | fileNotFoundError (filename : String)
  | timeoutExpired (cmd : List String) (timeoutSecs : Nat)
deriving DecidableEq, Repr

/-- Observable events of a run, in program order.  `print ch text` is a
Python `print(…)` call writing `text` (its arguments joined by one space; the
trailing newline that `print` appends is not represented) to channel `ch`.
`buildTranscript text` records the completed construction of the expect
transcript (the assignment on source lines 16–28).  `runSubprocess argv t`
records an operating-system process actually being started with argument
vector `argv` under a `t`-second timeout; no such event occurs when
`subprocess.run` raises `FileNotFoundError`, since no process starts and no
network connection is attempted. -/
inductive Event where
  | print (ch : StdStream) (text : String)
  | buildTranscript (text : String)
  | runSubprocess (argv : List String) (timeoutSecs : Nat)
deriving DecidableEq, Repr

/-- How the run ends: `sys.exit(code)`, or an exception propagating out of
the script unhandled (Python then terminates the process with a nonzero
status and a traceback). -/
inductive Outcome where
  | exited (code : Int)
  | uncaught (exc : PyExc)
deriving DecidableEq, Repr

/-- The string `"=" * 60` used by the fallback banner lines. -/
def sepLine : String := String.mk (List.replicate 60 '=')

/-- The arguments of the nine `print` calls of the `except FileNotFoundError`
branch (source lines 43–52), in order, each as the single string the call
writes (arguments joined by one space, `print`'s trailing newline not
represented).  All nine calls use the default file, `sys.stdout`. -/
def fallbackMessages : List String :=
  ["expect not found. Trying alternative method...",
   "\n" ++ sepLine,
   "Please run this command manually:",
   sepLine,
   "\nscp infra/setup-on-server.sh root@" ++ VPS_IP ++ ":/tmp/",
   "\nssh root@" ++ VPS_IP,
   "chmod +x /tmp/setup-on-server.sh",
   "/tmp/setup-on-server.sh",
   "\n" ++ sepLine]

/-- The whole script, source lines 11–53, as a function from the environment
to the event trace and the outcome.

* If the local bootstrap script file is absent, the `open` on line 12 raises
  `FileNotFoundError`; this happens before the `try` block, so nothing
  catches it, no event occurs, and the run aborts.
* Otherwise the transcript is built from the file contents, and
  `subprocess.run(['expect', '-c', transcript], capture_output=True,
  text=True, timeout=600)` is attempted:
  * `completed out err rc`: the process runs; line 38 prints `out` to
    stdout; line 39–40 prints `"STDERR: " ++ err` to stderr exactly when
    `err` is non-empty (Python string truthiness); line 41 exits with `rc`.
  * `binaryMissing`: `FileNotFoundError` is raised before any process
    starts; the `except FileNotFoundError` branch prints the nine fallback
    messages to stdout and exits with code 1.
  * `timedOut`: the process starts, the 600-second timeout expires, and
    `subprocess.TimeoutExpired` propagates: the `except` clause on line 42
    names only `FileNotFoundError`, so the exception is unhandled. -/
def runRemoteSetup (env : Env) : List Event × Outcome :=
  match env.setupScriptFile with
  | none => ([], Outcome.uncaught (PyExc.fileNotFoundError setup_script_path))
  | some setup_script =>
      let transcript := expect_script VPS_USER VPS_IP VPS_PASS setup_script
      match env.expectBehavior with
      | SubprocessBehavior.completed out err rc =>
          (Event.buildTranscript transcript ::
             Event.runSubprocess ["expect", "-c", transcript] 600 ::
             Event.print StdStream.stdout out ::
             (if err = "" then []
              else [Event.print StdStream.stderr ("STDERR: " ++ err)]),
           Outcome.exited rc)
      | SubprocessBehavior.binaryMissing =>
          (Event.buildTranscript transcript ::
             fallbackMessages.map (Event.print StdStream.stdout),
           Outcome.exited 1)
      | SubprocessBehavior.timedOut =>
          ([Event.buildTranscript transcript,
            Event.runSubprocess ["expect", "-c", transcript] 600],
           Outcome.uncaught
             (PyExc.timeoutExpired ["expect", "-c", transcript] 600))

/-- Whether an event is a `print` to the error stream. -/
def isStderrPrint : Event → Bool
  | Event.print StdStream.stderr _ => true
  | _ => false

/-- The transcripts recorded as built along a trace, in order. -/
def transcriptsBuilt (trace : List Event) : List String :=
  trace.filterMap fun e =>
    match e with
    | Event.buildTranscript t => some t
    | _ => none

/-- Congruence for replacing the closed parts around an embedded body. -/
theorem append_split_congr (a b c d x : String) (h1 : a = c) (h2 : b = d) :
    a ++ x ++ b = c ++ x ++ d := by rw [h1, h2]

/-- C1: when the automation-utility subprocess is found and completes, the
script prints the captured stdout to stdout, prints the captured stderr to
the error stream exactly when it is non-empty, and exits with the
subprocess's own return code — for every return code `rc`, zero or not. -/
theorem success_propagates_output_and_code (env : Env) (s out err : String) (rc : Int)
    (hf : env.setupScriptFile = some s)
    (hb : env.expectBehavior = SubprocessBehavior.completed out err rc) :
    (runRemoteSetup env).2 = Outcome.exited rc ∧
    Event.print StdStream.stdout out ∈ (runRemoteSetup env).1 ∧
    (err ≠ "" → Event.print StdStream.stderr ("STDERR: " ++ err) ∈ (runRemoteSetup env).1) ∧
    (err = "" → ∀ t, Event.print StdStream.stderr t ∉ (runRemoteSetup env).1) := by
  by_cases he : err = "" <;> simp [runRemoteSetup, hf, hb, he]

/-- C1 witness: the spec's own example — the utility returns exit code 0 with
output "ok"; the script prints "ok" and exits 0. -/
theorem success_propagates_output_and_code_ok :
    (runRemoteSetup ⟨some "echo hello", SubprocessBehavior.completed "ok" "" 0⟩).2 =
      Outcome.exited 0 ∧
    Event.print StdStream.stdout "ok" ∈
      (runRemoteSetup ⟨some "echo hello", SubprocessBehavior.completed "ok" "" 0⟩).1 :=
  ⟨(success_propagates_output_and_code _ "echo hello" "ok" "" 0 rfl rfl).1,
   (success_propagates_output_and_code _ "echo hello" "ok" "" 0 rfl rfl).2.1⟩

/-- C2: when the automation utility binary is absent (the `subprocess.run`
call raises `FileNotFoundError`), the script prints the fallback notice and
manual instructions containing the literal host address, exits with the fixed
code 1, and no subprocess is ever started (no network connection is
attempted). -/
theorem missing_expect_prints_fallback (env : Env) (s : String)
    (hf : env.setupScriptFile = some s)
    (hb : env.expectBehavior = SubprocessBehavior.binaryMissing) :
    (runRemoteSetup env).2 = Outcome.exited 1 ∧
    Event.print StdStream.stdout "expect not found. Trying alternative method..." ∈
      (runRemoteSetup env).1 ∧
    Event.print StdStream.stdout ("\nscp infra/setup-on-server.sh root@" ++ VPS_IP ++ ":/tmp/") ∈
      (runRemoteSetup env).1 ∧
    (∀ argv t, Event.runSubprocess argv t ∉ (runRemoteSetup env).1) := by
  simp [runRemoteSetup, hf, hb, fallbackMessages]

/-- C2 witness: with the script file present and the utility absent, the run
exits 1 and prints the manual `scp` instruction holding the host address. -/
theorem missing_expect_prints_fallback_ok :
    (runRemoteSetup ⟨some "echo hello", SubprocessBehavior.binaryMissing⟩).2 =
      Outcome.exited 1 ∧
    Event.print StdStream.stdout
        ("\nscp infra/setup-on-server.sh root@" ++ VPS_IP ++ ":/tmp/") ∈
      (runRemoteSetup ⟨some "echo hello", SubprocessBehavior.binaryMissing⟩).1 :=
  ⟨(missing_expect_prints_fallback _ "echo hello" rfl rfl).1,
   (missing_expect_prints_fallback _ "echo hello" rfl rfl).2.2.1⟩

/-- C3: for every bootstrap script body, the transcript is exactly the
expect program that sets a 300-second timeout, spawns ssh with host-key
checking disabled, waits for the password prompt, sends the literal password,
waits for the shell prompt, opens the heredoc-delimited `bash` invocation,
sends the entire body as one literal block (`send "<body>"`), closes the
heredoc, waits for the prompt, sends `exit` and waits for end-of-session —
in that order.  Instantiating `setup` with `echo hello` yields a transcript
containing the literal substring `send "echo hello"`. -/
theorem transcript_structure (setup : String) :
    expect_script VPS_USER VPS_IP VPS_PASS setup =
      ("#!/usr/bin/expect -f\n"
        ++ "set timeout 300\n"
        ++ "spawn ssh -o StrictHostKeyChecking=no root@159.89.113.242\n"
        ++ "expect \"password:\"\n"
        ++ "send \"AVallon1231402@rooot\\r\"\n"
        ++ "expect \"# \"\n"
        ++ "send \"bash << 'REMOTE_SCRIPT'\\r\"\n"
        ++ "send \"")
      ++ setup
      ++ ("\"\n"
        ++ "send \"REMOTE_SCRIPT\\r\"\n"
        ++ "expect \"# \"\n"
        ++ "send \"exit\\r\"\n"
        ++ "expect eof\n") := by
  simp only [expect_script, VPS_USER, VPS_IP, VPS_PASS]
  exact append_split_congr _ _ _ _ setup rfl rfl

/-- C4: the transcript is a pure deterministic function of the (hardcoded)
host, user and password and the bootstrap script contents: any two runs whose
script files hold the same contents build exactly the same single transcript,
whatever else the environment does, and that transcript is
`expect_script VPS_USER VPS_IP VPS_PASS s`. -/
theorem transcript_deterministic (env1 env2 : Env) (s : String)
    (h1 : env1.setupScriptFile = some s)
    (h2 : env2.setupScriptFile = some s) :
    transcriptsBuilt (runRemoteSetup env1).1 = transcriptsBuilt (runRemoteSetup env2).1 ∧
    transcriptsBuilt (runRemoteSetup env1).1 = [expect_script VPS_USER VPS_IP VPS_PASS s] := by
  have key : ∀ env : Env, env.setupScriptFile = some s →
      transcriptsBuilt (runRemoteSetup env).1 = [expect_script VPS_USER VPS_IP VPS_PASS s] := by
    intro env hf
    cases hb : env.expectBehavior <;>
      simp [runRemoteSetup, hf, hb, transcriptsBuilt, fallbackMessages]
  exact ⟨(key env1 h1).trans (key env2 h2).symm, key env1 h1⟩

/-- C4 witness: two runs in different environment states but with the same
script contents build identical transcript text. -/
theorem transcript_deterministic_ok :
    transcriptsBuilt (runRemoteSetup ⟨some "echo hello", SubprocessBehavior.binaryMissing⟩).1 =
      transcriptsBuilt (runRemoteSetup ⟨some "echo hello", SubprocessBehavior.timedOut⟩).1 :=
  (transcript_deterministic _ _ "echo hello" rfl rfl).1

/-- C5: if the local bootstrap script file does not exist, the run aborts
with the unhandled `FileNotFoundError` from the read (nothing catches or
reformats it), the event trace is empty, and in particular no subprocess is
started — no network connection is attempted. -/
theorem missing_script_aborts (env : Env)
    (hf : env.setupScriptFile = none) :
    (runRemoteSetup env).2 = Outcome.uncaught (PyExc.fileNotFoundError setup_script_path) ∧
    (runRemoteSetup env).1 = [] ∧
    (∀ argv t, Event.runSubprocess argv t ∉ (runRemoteSetup env).1) := by
  simp [runRemoteSetup, hf]

/-- C5 witness: a run with the script file absent aborts unhandled with an
empty trace. -/
theorem missing_script_aborts_ok :
    (runRemoteSetup ⟨none, SubprocessBehavior.completed "" "" 0⟩).2 =
      Outcome.uncaught (PyExc.fileNotFoundError setup_script_path) ∧
    (runRemoteSetup ⟨none, SubprocessBehavior.completed "" "" 0⟩).1 = [] :=
  ⟨(missing_script_aborts _ rfl).1, (missing_script_aborts _ rfl).2.1⟩

/-- C6 counterexample: on the fallback path (utility absent, script file
present) nothing is written to the error stream, and the manual instructions
go to stdout — refuting the claim that the fallback instructions are written
to the error stream and not to stdout. -/
theorem fallback_instructions_on_stdout :
    (runRemoteSetup ⟨some "echo hello", SubprocessBehavior.binaryMissing⟩).1.filter
        isStderrPrint = [] ∧
    Event.print StdStream.stdout "Please run this command manually:" ∈
      (runRemoteSetup ⟨some "echo hello", SubprocessBehavior.binaryMissing⟩).1 := by
  constructor
  · simp [runRemoteSetup, fallbackMessages, isStderrPrint]
  · simp [runRemoteSetup, fallbackMessages]

/-- C6 amended: stderr carries only the subprocess's captured error text
(prefixed `STDERR:`), on the success path; on the fallback path every message
— the notice and all manual instructions — is written to stdout and nothing
is written to stderr. -/
theorem stream_assignment (env : Env) (s : String)
    (hf : env.setupScriptFile = some s) :
    (env.expectBehavior = SubprocessBehavior.binaryMissing →
      (runRemoteSetup env).1.filter isStderrPrint = [] ∧
      ∀ m ∈ fallbackMessages, Event.print StdStream.stdout m ∈ (runRemoteSetup env).1) ∧
    (∀ out err rc, env.expectBehavior = SubprocessBehavior.completed out err rc →
      (runRemoteSetup env).1.filter isStderrPrint =
        if err = "" then [] else [Event.print StdStream.stderr ("STDERR: " ++ err)]) := by
  constructor
  · intro hb
    constructor
    · simp [runRemoteSetup, hf, hb, fallbackMessages, isStderrPrint]
    · intro m hm
      simp only [runRemoteSetup, hf, hb]
      exact List.mem_cons_of_mem _ (List.mem_map_of_mem _ hm)
  · intro out err rc hb
    by_cases he : err = "" <;> simp [runRemoteSetup, hf, hb, he, isStderrPrint]

/-- C6 amended witness: on a concrete fallback run nothing reaches stderr. -/
theorem stream_assignment_ok :
    (runRemoteSetup ⟨some "x", SubprocessBehavior.binaryMissing⟩).1.filter isStderrPrint = [] :=
  ((stream_assignment ⟨some "x", SubprocessBehavior.binaryMissing⟩ "x" rfl).1 rfl).1

/-- C7: every subprocess the script starts is bounded by the explicit
600-second timeout, and when that timeout expires the resulting
`TimeoutExpired` exception is not caught (only `FileNotFoundError` is), so
the run ends with an unhandled timeout error and no custom message. -/
theorem subprocess_timeout_uncaught (env : Env) (s : String)
    (hf : env.setupScriptFile = some s) :
    (∀ argv t, Event.runSubprocess argv t ∈ (runRemoteSetup env).1 → t = 600) ∧
    (env.expectBehavior = SubprocessBehavior.timedOut →
      (runRemoteSetup env).2 =
        Outcome.uncaught (PyExc.timeoutExpired
          ["expect", "-c", expect_script VPS_USER VPS_IP VPS_PASS s] 600)) := by
  constructor
  · intro argv t h
    cases hb : env.expectBehavior
    case completed out err rc =>
      by_cases he : err = "" <;> simp [runRemoteSetup, hf, hb, he] at h <;> exact h.2
    case binaryMissing =>
      simp [runRemoteSetup, hf, hb, fallbackMessages] at h
    case timedOut =>
      simp [runRemoteSetup, hf, hb] at h
      exact h.2
  · intro hb
    simp [runRemoteSetup, hf, hb]

/-- C7 witness: a concrete timed-out run ends with the unhandled timeout
exception of the 600-second-bounded expect invocation. -/
theorem subprocess_timeout_uncaught_ok :
    (runRemoteSetup ⟨some "s", SubprocessBehavior.timedOut⟩).2 =
      Outcome.uncaught (PyExc.timeoutExpired
        ["expect", "-c", expect_script VPS_USER VPS_IP VPS_PASS "s"] 600) :=
  (subprocess_timeout_uncaught ⟨some "s", SubprocessBehavior.timedOut⟩ "s" rfl).2 rfl

/-- C8: in every run that reads the script file, the complete transcript —
embedding the password and the entire bootstrap script body — is constructed
as the very first event, before any subprocess starts; it is never rebuilt or
mutated afterwards, and any subprocess that does start receives exactly that
transcript. -/
theorem transcript_built_first (env : Env) (s : String)
    (hf : env.setupScriptFile = some s) :
    ∃ rest,
      (runRemoteSetup env).1 =
        Event.buildTranscript (expect_script VPS_USER VPS_IP VPS_PASS s) :: rest ∧
      (∀ t, Event.buildTranscript t ∉ rest) ∧
      (∀ argv t, Event.runSubprocess argv t ∈ rest →
        argv = ["expect", "-c", expect_script VPS_USER VPS_IP VPS_PASS s]) ∧
      (∃ a b, expect_script VPS_USER VPS_IP VPS_PASS s = a ++ VPS_PASS ++ b) ∧
      (∃ c d, expect_script VPS_USER VPS_IP VPS_PASS s = c ++ s ++ d) := by
  have hpass : ∃ a b, expect_script VPS_USER VPS_IP VPS_PASS s = a ++ VPS_PASS ++ b := by
    refine ⟨"#!/usr/bin/expect -f\nset timeout 300\nspawn ssh -o StrictHostKeyChecking=no "
      ++ VPS_USER ++ "@" ++ VPS_IP ++ "\nexpect \"password:\"\nsend \"",
      "\\r\"\nexpect \"# \"\nsend \"bash << 'REMOTE_SCRIPT'\\r\"\nsend \"" ++ s
      ++ "\"\nsend \"REMOTE_SCRIPT\\r\"\nexpect \"# \"\nsend \"exit\\r\"\nexpect eof\n", ?_⟩
    simp [expect_script, String.append_assoc]
  have hbody : ∃ c d, expect_script VPS_USER VPS_IP VPS_PASS s = c ++ s ++ d := by
    refine ⟨"#!/usr/bin/expect -f\nset timeout 300\nspawn ssh -o StrictHostKeyChecking=no "
      ++ VPS_USER ++ "@" ++ VPS_IP ++ "\nexpect \"password:\"\nsend \"" ++ VPS_PASS
      ++ "\\r\"\nexpect \"# \"\nsend \"bash << 'REMOTE_SCRIPT'\\r\"\nsend \"",
      "\"\nsend \"REMOTE_SCRIPT\\r\"\nexpect \"# \"\nsend \"exit\\r\"\nexpect eof\n", ?_⟩
    simp [expect_script, String.append_assoc]
  cases hb : env.expectBehavior
  case completed out err rc =>
    have htrace : (runRemoteSetup env).1 =
        Event.buildTranscript (expect_script VPS_USER VPS_IP VPS_PASS s) ::
        Event.runSubprocess ["expect", "-c", expect_script VPS_USER VPS_IP VPS_PASS s] 600 ::
        Event.print StdStream.stdout out ::
        (if err = "" then []
         else [Event.print StdStream.stderr ("STDERR: " ++ err)]) := by
      simp [runRemoteSetup, hf, hb]
    refine ⟨_, htrace, ?_, ?_, hpass, hbody⟩
    · intro t
      by_cases he : err = "" <;> simp [he]
    · intro argv t h
      by_cases he : err = "" <;> simp [he] at h <;> exact h.1
  case binaryMissing =>
    have htrace : (runRemoteSetup env).1 =
        Event.buildTranscript (expect_script VPS_USER VPS_IP VPS_PASS s) ::
        fallbackMessages.map (Event.print StdStream.stdout) := by
      simp [runRemoteSetup, hf, hb]
    refine ⟨_, htrace, ?_, ?_, hpass, hbody⟩
    · intro t
      simp [fallbackMessages]
    · intro argv t h
      simp [fallbackMessages] at h
  case timedOut =>
    have htrace : (runRemoteSetup env).1 =
        [Event.buildTranscript (expect_script VPS_USER VPS_IP VPS_PASS s),
         Event.runSubprocess ["expect", "-c", expect_script VPS_USER VPS_IP VPS_PASS s] 600] := by
      simp [runRemoteSetup, hf, hb]
    refine ⟨_, htrace, ?_, ?_, hpass, hbody⟩
    · intro t; simp
    · intro argv t h
      simp at h
      exact h.1

/-- C8 witness: on a concrete run the first event is the construction of the
full transcript. -/
theorem transcript_built_first_ok :
    (runRemoteSetup ⟨some "echo hello", SubprocessBehavior.completed "" "" 0⟩).1.head? =
      some (Event.buildTranscript (expect_script VPS_USER VPS_IP VPS_PASS "echo hello")) := by
  obtain ⟨rest, h1, -, -, -, -⟩ := transcript_built_first
    ⟨some "echo hello", SubprocessBehavior.completed "" "" 0⟩ "echo hello" rfl
  rw [h1]; rfl

/-- C9: the missing-utility fallback is reachable only after the script file
was read: when the file is absent, the run aborts with the unhandled read
error and prints nothing at all — even when the automation utility is also
absent.  The missing-file error takes precedence over the fallback. -/
theorem read_error_precedes_fallback (env : Env)
    (hf : env.setupScriptFile = none)
    ( _hb : env.expectBehavior = SubprocessBehavior.binaryMissing) :
    (runRemoteSetup env).2 = Outcome.uncaught (PyExc.fileNotFoundError setup_script_path) ∧
    (∀ ch t, Event.print ch t ∉ (runRemoteSetup env).1) := by
  simp [runRemoteSetup, hf]

/-- C9 witness: with both the script file and the utility absent, the run
aborts with the read error, not the fallback. -/
theorem read_error_precedes_fallback_ok :
    (runRemoteSetup ⟨none, SubprocessBehavior.binaryMissing⟩).2 =
      Outcome.uncaught (PyExc.fileNotFoundError setup_script_path) :=
  (read_error_precedes_fallback ⟨none, SubprocessBehavior.binaryMissing⟩ rfl rfl).1

/-- C10: on the success path, the error stream receives nothing when the
captured stderr is empty; when it is non-empty, the single stderr write is
the captured text prefixed by the literal `STDERR:`; and in either case the
exit code is the subprocess's return code, unaffected by stderr. -/
theorem stderr_frame_exact (env : Env) (s out err : String) (rc : Int)
    (hf : env.setupScriptFile = some s)
    (hb : env.expectBehavior = SubprocessBehavior.completed out err rc) :
    ((runRemoteSetup env).1.filter isStderrPrint =
      if err = "" then [] else [Event.print StdStream.stderr ("STDERR: " ++ err)]) ∧
    (runRemoteSetup env).2 = Outcome.exited rc := by
  by_cases he : err = "" <;> simp [runRemoteSetup, hf, hb, he, isStderrPrint]

/-- C10 witness: with captured stderr "boom" and return code 3, the lone
stderr write is `STDERR: boom` and the exit code is 3. -/
theorem stderr_frame_exact_ok :
    ((runRemoteSetup ⟨some "x", SubprocessBehavior.completed "out" "boom" 3⟩).1.filter
        isStderrPrint =
      if ("boom" : String) = "" then []
      else [Event.print StdStream.stderr ("STDERR: " ++ "boom")]) ∧
    (runRemoteSetup ⟨some "x", SubprocessBehavior.completed "out" "boom" 3⟩).2 =
      Outcome.exited 3 :=
  stderr_frame_exact _ "x" "out" "boom" 3 rfl rfl
